import Mathlib

/-
Verification of the camera hardware-abstraction contract of
cob_driver / cob_camera_sensors, embedded from
src/cob_camera_sensors/common/include/cob_camera_sensors/AbstractColorCamera.h
and, where the header only declares a pure-virtual operation whose
implementation lives outside src/, modelled from the specification.
-/

namespace IpaCameraSensors

/-- Return code RET_OK from cob_vision_utils/CameraSensorDefines.h (a header outside
src/): the success code of the camera interface. -/
def RET_OK : Nat := 1

/-- Return code RET_FAILED from cob_vision_utils/CameraSensorDefines.h (a header outside
src/): the generic failure code of the camera interface. -/
def RET_FAILED : Nat := 2

/-- Modelled from the spec: the error taxonomy of section 7 (ConfigError, IndexError,
LifecycleError, DeviceUnavailable, UnsupportedProperty, OutOfRange, DeviceError,
Timeout, IOError). The concrete backends that would raise these are not under src/. -/
inductive CamError where
  | configError
  | indexError
  | lifecycleError
  | deviceUnavailable
  | unsupportedProperty
  | outOfRange
  | deviceError
  | timeout
  | ioError
deriving DecidableEq, Repr

/-- Modelled from the spec: LifecycleState is one of Uninitialized, Initialized,
Open, Closed (spec section 3).  `opened` stands for the spec's Open state. -/
inductive LifecycleState where
  | uninitialized
  | initialized
  | opened
  | closed
deriving DecidableEq, Repr

/-- Modelled from the spec: the kinds of runtime-tunable camera properties handled by
the PropertyChannel (exposure, gain, shutter, white balance, etc., spec section 2);
the t_cameraProperty ID enum lives in CameraSensorTypes.h outside src/. -/
inductive PropertyKind where
  | exposure
  | gain
  | shutter
  | whiteBalanceU
  | whiteBalanceV
  | hue
  | saturation
  | gamma
  | brightness
  | frameRate
deriving DecidableEq, Repr

/-- The list of every property kind; used by the all-or-nothing reset. -/
def allKinds : List PropertyKind :=
  [.exposure, .gain, .shutter, .whiteBalanceU, .whiteBalanceV,
   .hue, .saturation, .gamma, .brightness, .frameRate]

theorem mem_allKinds (k : PropertyKind) : k ∈ allKinds := by
  cases k <;> simp [allKinds]

/-- Modelled from the spec: the runtime property state of one backend: the current
value of each property kind, which kinds the active backend supports, the backend's
factory defaults, and the backend's valid range per kind (spec section 4.2). -/
structure PropState where
  value : PropertyKind → Int
  supported : PropertyKind → Bool
  defaults : PropertyKind → Int
  lo : PropertyKind → Int
  hi : PropertyKind → Int

/-- Modelled from the spec: a CameraProperty is a property kind carrying a numeric
value plus an optional AUTO flag (spec section 3). -/
structure CameraProperty where
  kind : PropertyKind
  value : Int
  autoFlag : Bool
deriving DecidableEq, Repr

/-- Modelled from the spec: the FrameSource acquisition state.  Frames are identified
by their acquisition sequence number; `produced` frames 0 .. produced-1 have been
captured so far, `nextUnread` is the sequence number of the next frame a
getLatestFrame=false caller has not yet been handed, and `m_BufferSize` is the
header's ring-buffer capacity member (AbstractColorCamera.h line 182). -/
structure FrameSource where
  m_BufferSize : Nat
  produced : Nat
  nextUnread : Nat
deriving DecidableEq, Repr

/-- Modelled from the spec: a new capture appends one frame; when the ring buffer
(capacity m_BufferSize) already holds only unread frames, the oldest unread frame
is dropped (spec section 4.3). -/
def captureFrame (fs : FrameSource) : FrameSource :=
  { fs with
    produced := fs.produced + 1,
    nextUnread := max fs.nextUnread (fs.produced + 1 - fs.m_BufferSize) }

/-- Modelled from the spec: the state of one camera instance: its lifecycle state
(owned solely by the instance), its property state, and its frame source. -/
structure CameraState where
  lifecycle : LifecycleState
  props : PropState
  frames : FrameSource

/-- Modelled from the spec: `GetColorImage(cv::Mat*, getLatestFrame)` — the central
acquisition call GetFrame, declared pure virtual at AbstractColorCamera.h line 119
with its implementations outside src/.  Callable only while Open, otherwise it fails
with LifecycleError.  A transport/hardware fault of the backend is the `transport`
argument and surfaces as that error.  getLatestFrame=true discards buffered frames
and returns the most recent capture (Timeout when no frame ever arrives);
getLatestFrame=false returns the next frame strictly after the last one handed out,
or Timeout when none becomes available.  The returned Nat is the frame's acquisition
sequence number. -/
def GetColorImage (transport : Option CamError) (c : CameraState)
    (getLatestFrame : Bool) : Except CamError Nat × CameraState :=
  if c.lifecycle ≠ .opened then (.error .lifecycleError, c)
  else match transport with
  | some e => (.error e, c)
  | none =>
    if getLatestFrame then
      if c.frames.produced = 0 then (.error .timeout, c)
      else (.ok (c.frames.produced - 1),
            { c with frames := { c.frames with nextUnread := c.frames.produced } })
    else
      if c.frames.nextUnread < c.frames.produced then
        (.ok c.frames.nextUnread,
         { c with frames := { c.frames with nextUnread := c.frames.nextUnread + 1 } })
      else (.error .timeout, c)

/-- Modelled from the spec: `Open()` (pure virtual, AbstractColorCamera.h line 99,
implementations outside src/): valid only from Initialized or Closed; fails with
DeviceUnavailable when resource acquisition fails, leaving the state unchanged. -/
def OpenCamera (deviceAvailable : Bool) (c : CameraState) :
    Except CamError Unit × CameraState :=
  match c.lifecycle with
  | .initialized =>
      if deviceAvailable then (.ok (), { c with lifecycle := .opened })
      else (.error .deviceUnavailable, c)
  | .closed =>
      if deviceAvailable then (.ok (), { c with lifecycle := .opened })
      else (.error .deviceUnavailable, c)
  | _ => (.error .lifecycleError, c)

/-- Modelled from the spec: `Close()` (pure virtual, AbstractColorCamera.h line 103,
implementations outside src/): releases resources and transitions Open → Closed;
calling Close when not Open is a no-op returning success. -/
def CloseCamera (c : CameraState) : Except CamError Unit × CameraState :=
  if c.lifecycle = .opened then (.ok (), { c with lifecycle := .closed })
  else (.ok (), c)

/-- From AbstractColorCamera.h line 110: the non-virtual raw-buffer overload
`GetColorImage(char* colorImageData, bool getLatestFrame)` whose whole body is
`return RET_FAILED;` — it ignores every argument and the camera state. -/
def GetColorImageBuffer (c : CameraState) (colorImageData : List Nat)
    (getLatestFrame : Bool) : Nat × CameraState :=
  (RET_FAILED, c)

/-- From AbstractColorCamera.h line 166: the default body of
`SetPathToImages(std::string path)` is `return RET_OK;` — a no-op returning the
success code, inherited by every non-replay backend. -/
def SetPathToImages (c : CameraState) (path : String) : Nat × CameraState :=
  (RET_OK, c)

/-- From AbstractColorCamera.h line 168: the default body of `ResetImages()` is
`return RET_OK;` — a no-op returning the success code, inherited by every
non-replay backend. -/
def ResetImages (c : CameraState) : Nat × CameraState :=
  (RET_OK, c)

/-- From AbstractColorCamera.h line 160: the default body of `GetNumberOfImages()`
returns `std::numeric_limits<int>::max()`, the unbounded sentinel inherited by
live/streaming backends. -/
def GetNumberOfImages : Int := 2147483647

/-- Modelled from the spec: the file-replay (virtual camera) override of
GetNumberOfImages — not under src/ — returns the total number of available images
of the replay image set (spec section 4.3). -/
def VirtualCam.GetNumberOfImages (imageSet : List String) : Int :=
  imageSet.length

/-- Modelled from the spec: `isOpen()` is a pure query reflecting the current
LifecycleState (AbstractColorCamera.h line 93 returns the member m_open, which is
true exactly while the camera is Open). -/
def isOpen (c : CameraState) : Bool :=
  c.lifecycle = .opened

/-- Modelled from the spec: `isInitialized()` is a pure query reflecting the current
LifecycleState (AbstractColorCamera.h line 89 returns the member m_initialized, set
by Init and true from the Initialized state on). -/
def isInitialized (c : CameraState) : Bool :=
  c.lifecycle ≠ .uninitialized

/-- Modelled from the spec: `SetProperty` (pure virtual, AbstractColorCamera.h
line 129, implementations outside src/): applies one CameraProperty.  Only callable
while Open (else LifecycleError); an unsupported property kind fails with
UnsupportedProperty and leaves the state unchanged; a value outside the backend's
valid range fails with OutOfRange and leaves the state unchanged; otherwise the
property takes effect immediately. -/
def SetProperty (c : CameraState) (p : CameraProperty) :
    Except CamError Unit × CameraState :=
  if c.lifecycle ≠ .opened then (.error .lifecycleError, c)
  else if c.props.supported p.kind = false then (.error .unsupportedProperty, c)
  else if p.value < c.props.lo p.kind ∨ c.props.hi p.kind < p.value then
    (.error .outOfRange, c)
  else
    (.ok (),
     { c with props :=
        { c.props with value := fun k => if k = p.kind then p.value else c.props.value k } })

/-- Modelled from the spec: one step of the factory-default reset — when the backend
supports kind `k`, its value becomes the factory default; an unsupported kind is
skipped. -/
def applyDefault (c : PropState) (k : PropertyKind) : PropState :=
  if c.supported k then
    { c with value := fun j => if j = k then c.defaults k else c.value j }
  else c

/-- Modelled from the spec: the backend walks the property kinds in order, resetting
each supported one; a backend fault at position `faultAt` (none when faultAt is at
least the list length) aborts the walk. -/
def resetFrom : List PropertyKind → Nat → PropState → Option PropState
  | [], _, c => some c
  | k :: ks, faultAt, c =>
      if faultAt = 0 then none
      else resetFrom ks (faultAt - 1) (applyDefault c k)

/-- Modelled from the spec: `SetPropertyDefaults` (pure virtual,
AbstractColorCamera.h line 133, implementations outside src/): resets every
supported property to the backend's factory default, all-or-nothing — a backend
fault mid-reset makes the whole call fail with DeviceError and the pre-call
snapshot is what the caller observes. -/
def SetPropertyDefaults (faultAt : Nat) (c : PropState) :
    Except CamError Unit × PropState :=
  match resetFrom allKinds faultAt c with
  | some c' => (.ok (), c')
  | none => (.error .deviceError, c)

/-- Modelled from the spec: each configuration field carries a literal value, the
AUTO sentinel, or the DEFAULT sentinel (spec sections 3 and 9: a sum type
Literal(value) | Auto | Default per field). -/
inductive ConfigField where
  | literal (v : Nat)
  | auto
  | default
deriving DecidableEq, Repr

/-- From AbstractColorCamera.h lines 55-76: the struct t_ColorCameraParameters
storing the values of the xml camera configuration file, one field per stringstream
member; every field may hold a value or the AUTO/DEFAULT sentinel. -/
structure t_ColorCameraParameters where
  m_CameraRole : ConfigField
  m_VideoFormat : ConfigField
  m_VideoMode : ConfigField
  m_ColorMode : ConfigField
  m_IsoSpeed : ConfigField
  m_FrameRate : ConfigField
  m_Shutter : ConfigField
  m_WhiteBalanceU : ConfigField
  m_WhiteBalanceV : ConfigField
  m_Hue : ConfigField
  m_Saturation : ConfigField
  m_Gamma : ConfigField
  m_ExposureTime : ConfigField
  m_Gain : ConfigField
  m_Brightness : ConfigField
  m_ImageWidth : ConfigField
  m_ImageHeight : ConfigField
  m_Interface : ConfigField
  m_IP : ConfigField
deriving DecidableEq, Repr

/-- The fields of a parameter record, in declaration order. -/
def fieldsOf (p : t_ColorCameraParameters) : List ConfigField :=
  [p.m_CameraRole, p.m_VideoFormat, p.m_VideoMode, p.m_ColorMode, p.m_IsoSpeed,
   p.m_FrameRate, p.m_Shutter, p.m_WhiteBalanceU, p.m_WhiteBalanceV, p.m_Hue,
   p.m_Saturation, p.m_Gamma, p.m_ExposureTime, p.m_Gain, p.m_Brightness,
   p.m_ImageWidth, p.m_ImageHeight, p.m_Interface, p.m_IP]

/-- Modelled from the spec: device-dependent resolution of one field at Init time —
a literal stays itself, DEFAULT stays DEFAULT, and AUTO either stays AUTO or
re-resolves to a device-chosen concrete value (spec sections 3 and 8). -/
def resolveField (devicePick : Option Nat) : ConfigField → ConfigField
  | .literal v => .literal v
  | .auto =>
      match devicePick with
      | some v => .literal v
      | none => .auto
  | .default => .default

/-- Modelled from the spec: resolution of a whole parameter record at Init time;
`dev i` is the device's choice for the i-th field when that field is AUTO. -/
def resolveParams (dev : Nat → Option Nat) (p : t_ColorCameraParameters) :
    t_ColorCameraParameters :=
  { m_CameraRole := resolveField (dev 0) p.m_CameraRole,
    m_VideoFormat := resolveField (dev 1) p.m_VideoFormat,
    m_VideoMode := resolveField (dev 2) p.m_VideoMode,
    m_ColorMode := resolveField (dev 3) p.m_ColorMode,
    m_IsoSpeed := resolveField (dev 4) p.m_IsoSpeed,
    m_FrameRate := resolveField (dev 5) p.m_FrameRate,
    m_Shutter := resolveField (dev 6) p.m_Shutter,
    m_WhiteBalanceU := resolveField (dev 7) p.m_WhiteBalanceU,
    m_WhiteBalanceV := resolveField (dev 8) p.m_WhiteBalanceV,
    m_Hue := resolveField (dev 9) p.m_Hue,
    m_Saturation := resolveField (dev 10) p.m_Saturation,
    m_Gamma := resolveField (dev 11) p.m_Gamma,
    m_ExposureTime := resolveField (dev 12) p.m_ExposureTime,
    m_Gain := resolveField (dev 13) p.m_Gain,
    m_Brightness := resolveField (dev 14) p.m_Brightness,
    m_ImageWidth := resolveField (dev 15) p.m_ImageWidth,
    m_ImageHeight := resolveField (dev 16) p.m_ImageHeight,
    m_Interface := resolveField (dev 17) p.m_Interface,
    m_IP := resolveField (dev 18) p.m_IP }

/-- Modelled from the spec: `Init(directory, cameraIndex)` (pure virtual,
AbstractColorCamera.h line 85, implementations outside src/): the configuration
source holds one entry per camera index; Init selects the entry at `cameraIndex`
(IndexError when there is none) and resolves every field. -/
def Init (source : List t_ColorCameraParameters) (cameraIndex : Nat)
    (dev : Nat → Option Nat) : Except CamError t_ColorCameraParameters :=
  match source.get? cameraIndex with
  | some p => .ok (resolveParams dev p)
  | none => .error .indexError

/-- Modelled from the spec: `SaveParameters(filename)` (pure virtual,
AbstractColorCamera.h line 149, implementations outside src/): writes the current
resolved parameters to a file in the same schema as the configuration source,
yielding a one-entry configuration source for round-trip reload. -/
def SaveParameters (p : t_ColorCameraParameters) : List t_ColorCameraParameters :=
  [p]

/-- A saved field and its re-resolved counterpart agree, except that a field marked
AUTO at save time may have re-resolved to a concrete literal. -/
def agreeExceptAuto (saved reloaded : ConfigField) : Prop :=
  (saved = .auto ∧ ∃ v, reloaded = .literal v) ∨ reloaded = saved

/-- Modelled from the spec: a freshly constructed camera instance — Uninitialized
lifecycle state, the backend's property table, an empty frame buffer. -/
def freshCamera (props : PropState) (bufferSize : Nat) : CameraState :=
  { lifecycle := .uninitialized,
    props := props,
    frames := { m_BufferSize := bufferSize, produced := 0, nextUnread := 0 } }

/-- Modelled from the spec: CreateColorCamera_VirtualCam (AbstractColorCamera.h
line 199, implementation outside src/) returns a handle to a freshly constructed
Uninitialized instance of the virtual (file-replay) backend. -/
def CreateColorCamera_VirtualCam (props : PropState) (bufferSize : Nat) :
    CameraState :=
  freshCamera props bufferSize

/-- Modelled from the spec: CreateColorCamera_ICCam (AbstractColorCamera.h line 200,
implementation outside src/) returns a handle to a freshly constructed
Uninitialized instance of the industrial-FireWire backend. -/
def CreateColorCamera_ICCam (props : PropState) (bufferSize : Nat) : CameraState :=
  freshCamera props bufferSize

/-- Modelled from the spec: CreateColorCamera_AxisCam (AbstractColorCamera.h
line 201, implementation outside src/) returns a handle to a freshly constructed
Uninitialized instance of the IP/Axis backend. -/
def CreateColorCamera_AxisCam (props : PropState) (bufferSize : Nat) : CameraState :=
  freshCamera props bufferSize

/-- Modelled from the spec: CreateColorCamera_AVTPikeCam (AbstractColorCamera.h
line 202, implementation outside src/) returns a handle to a freshly constructed
Uninitialized instance of the FireWire-Pike backend. -/
def CreateColorCamera_AVTPikeCam (props : PropState) (bufferSize : Nat) :
    CameraState :=
  freshCamera props bufferSize

/-- Modelled from the spec: CreateColorCamera_OpenCVCamera (AbstractColorCamera.h
line 203, implementation outside src/) returns a handle to a freshly constructed
Uninitialized instance of the generic video-capture backend. -/
def CreateColorCamera_OpenCVCamera (props : PropState) (bufferSize : Nat) :
    CameraState :=
  freshCamera props bufferSize

/-- Modelled from the spec: CreateColorCamera_IDSuEyeCamera (AbstractColorCamera.h
line 204, implementation outside src/) returns a handle to a freshly constructed
Uninitialized instance of the USB vendor-camera backend. -/
def CreateColorCamera_IDSuEyeCamera (props : PropState) (bufferSize : Nat) :
    CameraState :=
  freshCamera props bufferSize

/-- The sequence-number trace of `n` successive GetColorImage calls with
getLatestFrame=false, a healthy transport and no intervening captures; the trace
stops at the first failing call. -/
def getFrameSeq : Nat → CameraState → List Nat
  | 0, _ => []
  | n + 1, c =>
      match GetColorImage none c false with
      | (.ok f, c') => f :: getFrameSeq n c'
      | (.error _, _) => []

/-- A sample backend property table for concrete witnesses. -/
def sampleProps : PropState :=
  { value := fun _ => 0, supported := fun _ => true, defaults := fun _ => 10,
    lo := fun _ => 0, hi := fun _ => 100 }

/-- A property table of a backend supporting no property kind at all. -/
def noSupportProps : PropState :=
  { value := fun _ => 3, supported := fun _ => false, defaults := fun _ => 10,
    lo := fun _ => 0, hi := fun _ => 100 }

/-- A concrete camera in the Closed state. -/
def closedCam : CameraState :=
  { lifecycle := .closed, props := sampleProps,
    frames := { m_BufferSize := 2, produced := 3, nextUnread := 1 } }

/-- A concrete Open camera whose backend supports no property kind. -/
def openUnsupCam : CameraState :=
  { lifecycle := .opened, props := noSupportProps,
    frames := { m_BufferSize := 2, produced := 3, nextUnread := 1 } }

/-- A concrete property assignment request. -/
def sampleProp : CameraProperty :=
  { kind := .gain, value := 5, autoFlag := false }

/-- C1: for every backend state that is not Open — before Open has ever been called
or after Close — the frame-acquisition call GetColorImage/GetFrame fails with
LifecycleError (it neither succeeds nor blocks) and leaves the camera unchanged,
whatever the getLatestFrame flag and the backend transport condition. -/
theorem getColorImage_requires_open (c : CameraState) (t : Option CamError)
    (getLatestFrame : Bool) (h : c.lifecycle ≠ .opened) :
    (GetColorImage t c getLatestFrame).1 = .error .lifecycleError ∧
    (GetColorImage t c getLatestFrame).2 = c := by
  simp [GetColorImage, h]

/-- Witness for C1: a concrete Closed camera. -/
theorem getColorImage_requires_open_witness :
    (GetColorImage none closedCam true).1 = .error .lifecycleError ∧
    (GetColorImage none closedCam true).2 = closedCam :=
  getColorImage_requires_open closedCam none true (by decide)

/-- C5: SetProperty with a property kind the active backend does not support fails
with UnsupportedProperty and changes nothing: no other property's value and no
device state differs after the call. -/
theorem setProperty_unsupported_no_effect (c : CameraState) (p : CameraProperty)
    (hopen : c.lifecycle = .opened)
    (hunsup : c.props.supported p.kind = false) :
    (SetProperty c p).1 = .error .unsupportedProperty ∧ (SetProperty c p).2 = c := by
  simp [SetProperty, hopen, hunsup]

/-- Witness for C5: a concrete Open camera whose backend supports nothing. -/
theorem setProperty_unsupported_no_effect_witness :
    (SetProperty openUnsupCam sampleProp).1 = .error .unsupportedProperty ∧
    (SetProperty openUnsupCam sampleProp).2 = openUnsupCam :=
  setProperty_unsupported_no_effect openUnsupCam sampleProp rfl rfl

/-- C7: GetNumberOfImages returns the total number of available images for the
finite file-replay source, and the live-backend default returns the unbounded
sentinel std::numeric_limits of int ::max() = 2^31 - 1. -/
theorem getNumberOfImages_count_and_sentinel :
    GetNumberOfImages = 2 ^ 31 - 1 ∧
    ∀ imageSet : List String,
      VirtualCam.GetNumberOfImages imageSet = imageSet.length :=
  ⟨by decide, fun _ => rfl⟩

/-- C8: for every path argument and every camera state, SetPathToImages and
ResetImages on a backend inheriting the base defaults are no-ops that return the
success code RET_OK, never the failure code. -/
theorem setPathToImages_resetImages_noop (c : CameraState) (path : String) :
    SetPathToImages c path = (RET_OK, c) ∧ ResetImages c = (RET_OK, c) ∧
    RET_OK ≠ RET_FAILED :=
  ⟨rfl, rfl, by decide⟩

/-- C9: every CameraFactory constructor function returns a freshly constructed
instance in the Uninitialized state: isInitialized() and isOpen() are both false
on it, whatever the backend's property table and buffer size. -/
theorem factories_return_uninitialized (props : PropState) (bufferSize : Nat) :
    (isInitialized (CreateColorCamera_VirtualCam props bufferSize) = false ∧
      isOpen (CreateColorCamera_VirtualCam props bufferSize) = false) ∧
    (isInitialized (CreateColorCamera_ICCam props bufferSize) = false ∧
      isOpen (CreateColorCamera_ICCam props bufferSize) = false) ∧
    (isInitialized (CreateColorCamera_AxisCam props bufferSize) = false ∧
      isOpen (CreateColorCamera_AxisCam props bufferSize) = false) ∧
    (isInitialized (CreateColorCamera_AVTPikeCam props bufferSize) = false ∧
      isOpen (CreateColorCamera_AVTPikeCam props bufferSize) = false) ∧
    (isInitialized (CreateColorCamera_OpenCVCamera props bufferSize) = false ∧
      isOpen (CreateColorCamera_OpenCVCamera props bufferSize) = false) ∧
    (isInitialized (CreateColorCamera_IDSuEyeCamera props bufferSize) = false ∧
      isOpen (CreateColorCamera_IDSuEyeCamera props bufferSize) = false) := by
  refine ⟨⟨rfl, rfl⟩, ⟨rfl, rfl⟩, ⟨rfl, rfl⟩, ⟨rfl, rfl⟩, ⟨rfl, rfl⟩, rfl, rfl⟩

/-- C10: the raw-buffer overload GetColorImage(char*, bool) of the base interface
returns RET_FAILED for every argument combination and in every lifecycle state,
Open included, and never succeeds (RET_FAILED is not the success code). -/
theorem getColorImageBuffer_always_fails (c : CameraState) (data : List Nat)
    (latest : Bool) :
    GetColorImageBuffer c data latest = (RET_FAILED, c) ∧ RET_FAILED ≠ RET_OK :=
  ⟨rfl, by decide⟩

theorem applyDefault_supported (c : PropState) (k : PropertyKind) :
    (applyDefault c k).supported = c.supported := by
  unfold applyDefault; split <;> rfl

theorem applyDefault_defaults (c : PropState) (k : PropertyKind) :
    (applyDefault c k).defaults = c.defaults := by
  unfold applyDefault; split <;> rfl

theorem applyDefault_value (c : PropState) (k j : PropertyKind) :
    (applyDefault c k).value j =
      if j = k ∧ c.supported k then c.defaults k else c.value j := by
  unfold applyDefault
  by_cases hs : c.supported k <;> by_cases hj : j = k <;> simp [hs, hj]

theorem resetFrom_some (l : List PropertyKind) (f : Nat) (c c' : PropState)
    (h : resetFrom l f c = some c') :
    c'.supported = c.supported ∧ c'.defaults = c.defaults ∧
    ∀ k, c'.value k = if k ∈ l ∧ c.supported k then c.defaults k else c.value k := by
  induction l generalizing f c with
  | nil =>
    simp [resetFrom] at h
    subst h
    simp
  | cons k ks ih =>
    simp only [resetFrom] at h
    by_cases hf : f = 0
    · simp [hf] at h
    · simp only [hf, if_false] at h
      obtain ⟨hs, hd, hv⟩ := ih (f - 1) (applyDefault c k) h
      rw [applyDefault_supported] at hs
      rw [applyDefault_defaults] at hd
      refine ⟨hs, hd, fun j => ?_⟩
      rw [hv j, applyDefault_supported, applyDefault_defaults, applyDefault_value]
      by_cases hmem : j ∈ ks <;> by_cases hjk : j = k <;>
        by_cases hsup : c.supported j = true <;>
        simp_all [List.mem_cons]

/-- C3: SetPropertyDefaults is atomic: either every supported property is reset to
its factory default (unsupported ones untouched), or the operation fails as a whole
with DeviceError and the observable state is exactly the pre-call state — no mix of
old and default values, wherever the backend fault strikes. -/
theorem setPropertyDefaults_atomic (faultAt : Nat) (c : PropState) :
    ((SetPropertyDefaults faultAt c).1 = .ok () ∧
      ∀ k, ((SetPropertyDefaults faultAt c).2).value k =
        if c.supported k then c.defaults k else c.value k) ∨
    ((SetPropertyDefaults faultAt c).1 = .error .deviceError ∧
      (SetPropertyDefaults faultAt c).2 = c) := by
  unfold SetPropertyDefaults
  cases h : resetFrom allKinds faultAt c with
  | none => right; simp
  | some c' =>
    left
    obtain ⟨_, _, hv⟩ := resetFrom_some _ _ _ _ h
    refine ⟨rfl, fun k => ?_⟩
    simpa [mem_allKinds k] using hv k

theorem getFrameSeq_eq_range (n : Nat) (c : CameraState)
    (hopen : c.lifecycle = .opened) :
    getFrameSeq n c =
      List.range' c.frames.nextUnread
        (min n (c.frames.produced - c.frames.nextUnread)) := by
  induction n generalizing c with
  | zero => simp [getFrameSeq]
  | succ n ih =>
    by_cases hlt : c.frames.nextUnread < c.frames.produced
    · have hstep :
          GetColorImage none c false =
            (.ok c.frames.nextUnread,
             { c with frames := { c.frames with nextUnread := c.frames.nextUnread + 1 } }) := by
        simp [GetColorImage, hopen, hlt]
      have hrec := ih { c with frames := { c.frames with nextUnread := c.frames.nextUnread + 1 } } hopen
      have hmin : min (n + 1) (c.frames.produced - c.frames.nextUnread) =
          min n (c.frames.produced - (c.frames.nextUnread + 1)) + 1 := by omega
      dsimp only at hrec
      rw [getFrameSeq, hstep]
      dsimp only
      rw [hrec, hmin, List.range'_succ]
    · have hstep : GetColorImage none c false = (.error .timeout, c) := by
        simp [GetColorImage, hopen, hlt]
      have hmin : min (n + 1) (c.frames.produced - c.frames.nextUnread) = 0 := by omega
      rw [getFrameSeq, hstep]
      dsimp only
      rw [hmin]
      rfl

/-- C2: a sequence of N GetFrame calls with getLatestFrame=false and no intervening
new captures hands out at most the frames actually produced, each frame at most
once, strictly in acquisition order, and every returned sequence number names a
frame that was actually captured. -/
theorem getFrameSeq_no_dup_in_order (n : Nat) (c : CameraState) :
    (getFrameSeq n c).length ≤ c.frames.produced ∧
    List.Pairwise (· < ·) (getFrameSeq n c) ∧
    (getFrameSeq n c).Nodup ∧
    ∀ f ∈ getFrameSeq n c, f < c.frames.produced := by
  by_cases hopen : c.lifecycle = .opened
  · rw [getFrameSeq_eq_range n c hopen]
    refine ⟨?_, ?_, ?_, ?_⟩
    · rw [List.length_range']; omega
    · exact List.pairwise_lt_range' _ _
    · exact List.nodup_range' _ _
    · intro f hf
      rw [List.mem_range'_1] at hf
      omega
  · have hnil : getFrameSeq n c = [] := by
      cases n with
      | zero => rfl
      | succ m =>
        have hstep : GetColorImage none c false = (.error .lifecycleError, c) := by
          simp [GetColorImage, hopen]
        rw [getFrameSeq, hstep]
    simp [hnil]

theorem resolveField_agree (d : Option Nat) (f : ConfigField) :
    agreeExceptAuto f (resolveField d f) := by
  cases f <;> cases d <;> simp [resolveField, agreeExceptAuto]

/-- C4: Init, then SaveParameters, then re-Init from the saved file yields
field-for-field identical resolved parameters, except that a field marked AUTO at
save time may re-resolve to a concrete literal. -/
theorem init_save_reinit_roundtrip (source : List t_ColorCameraParameters)
    (cameraIndex : Nat) (dev dev' : Nat → Option Nat)
    (p0 p1 : t_ColorCameraParameters)
    (h0 : Init source cameraIndex dev = .ok p0)
    (h1 : Init (SaveParameters p0) 0 dev' = .ok p1) :
    List.Forall₂ agreeExceptAuto (fieldsOf p0) (fieldsOf p1) := by
  have hp1 : p1 = resolveParams dev' p0 := by
    simp [Init, SaveParameters] at h1
    exact h1.symm
  subst hp1
  simp [fieldsOf, resolveParams, List.forall₂_cons, resolveField_agree]

/-- A sample configuration entry mixing literal, AUTO and DEFAULT fields. -/
def sampleSource : t_ColorCameraParameters :=
  { m_CameraRole := .literal 0, m_VideoFormat := .literal 7, m_VideoMode := .auto,
    m_ColorMode := .literal 3, m_IsoSpeed := .literal 400, m_FrameRate := .auto,
    m_Shutter := .auto, m_WhiteBalanceU := .literal 50, m_WhiteBalanceV := .literal 60,
    m_Hue := .default, m_Saturation := .default, m_Gamma := .literal 1,
    m_ExposureTime := .auto, m_Gain := .default, m_Brightness := .literal 80,
    m_ImageWidth := .literal 640, m_ImageHeight := .literal 480,
    m_Interface := .literal 2, m_IP := .default }

/-- A device that leaves every AUTO field unresolved at the first Init. -/
def devFirst : Nat → Option Nat := fun _ => none

/-- A device that re-resolves every AUTO field to the concrete value 42. -/
def devSecond : Nat → Option Nat := fun _ => some 42

/-- Witness for C4: a concrete one-camera configuration source round-trips. -/
theorem init_save_reinit_roundtrip_witness :
    List.Forall₂ agreeExceptAuto
      (fieldsOf (resolveParams devFirst sampleSource))
      (fieldsOf (resolveParams devSecond (resolveParams devFirst sampleSource))) :=
  init_save_reinit_roundtrip [sampleSource] 0 devFirst devSecond
    (resolveParams devFirst sampleSource)
    (resolveParams devSecond (resolveParams devFirst sampleSource)) rfl rfl

/-- C6: every fallible operation of the interface reports a specific error kind of
the taxonomy, and a backend error is never downgraded to success: a faulted
transport makes GetColorImage report LifecycleError or the backend's own error —
never .ok; Open on an unavailable device reports LifecycleError or
DeviceUnavailable; a backend fault at the start of SetPropertyDefaults reports
DeviceError; Init past the end of the configuration source reports IndexError. -/
theorem fallible_ops_report_specific_kind (c : CameraState) (latest : Bool)
    (e : CamError) (src : List t_ColorCameraParameters) (dev : Nat → Option Nat)
    (ps : PropState) :
    ((GetColorImage (some e) c latest).1 = .error .lifecycleError ∨
      (GetColorImage (some e) c latest).1 = .error e) ∧
    (∀ r, (GetColorImage (some e) c latest).1 ≠ .ok r) ∧
    ((OpenCamera false c).1 = .error .lifecycleError ∨
      (OpenCamera false c).1 = .error .deviceUnavailable) ∧
    (SetPropertyDefaults 0 ps).1 = .error .deviceError ∧
    Init src src.length dev = .error .indexError := by
  have hget : (GetColorImage (some e) c latest).1 = .error .lifecycleError ∨
      (GetColorImage (some e) c latest).1 = .error e := by
    by_cases hopen : c.lifecycle = .opened
    · right; simp [GetColorImage, hopen]
    · left; simp [GetColorImage, hopen]
  refine ⟨hget, ?_, ?_, ?_, ?_⟩
  · intro r hr
    rcases hget with hg | hg <;> rw [hg] at hr <;> exact Except.noConfusion hr
  · cases hc : c.lifecycle <;> simp [OpenCamera, hc]
  · rfl
  · have hnone : src.get? src.length = none := by
      rw [List.get?_eq_none]
    simp [Init, hnone]

end IpaCameraSensors
